import Mathlib

/-!
Shallow embedding of the doctors_office appointment scheduler
(`doctors_office.py`, `doctors_office_utilities.py`).

Python dictionaries are embedded as insertion-ordered association lists:
`dictGet` is subscript lookup, `dictSet` is subscript assignment (an existing
key keeps its position, a new key is appended), `dictPop` is `dict.pop` with
no default (returning `none` where Python raises `KeyError`).  Operations that
can raise return an `Except PyErr` outcome paired with the state as it stands
at the moment of the raise, mirroring Python's in-place mutation order.

`datetime` values are embedded as calendar records; comparison and
`timedelta` arithmetic in `in_week` go through `toSeconds`, the timestamp
on a total timeline (days from civil via the standard Gregorian algorithm),
which agrees with Python's field-wise `datetime` comparison on valid dates.
Microseconds are always 0 in this program and are omitted.
-/

namespace DocOffice

/-- A Python runtime error surfaced by the engine. -/
inductive PyErr where
  | keyError
  | attributeError
deriving DecidableEq, Repr

/-- Class `Doctor` (doctors_office.py): name, private id, office room name. -/
structure Doctor where
  name : String
  id : Int
  office : String
deriving DecidableEq, Repr

/-- Class `Patient` (doctors_office.py): name, private id, primary doctor id and
cancellation counter (initialised to 0 by `__init__`). -/
structure Patient where
  name : String
  id : Int
  primaryDoctorId : Int
  cancellations : Nat
deriving DecidableEq, Repr

/-- A slot value in the schedule's nested dictionary: the tuple
`(doctor with an appointment, patient with an appointment)`. -/
abbrev Slot := Doctor × Option Patient

/-- Python `datetime` restricted to the fields this program uses. -/
structure Datetime where
  year : Nat
  month : Nat
  day : Nat
  hour : Nat
  minute : Nat
  second : Nat
deriving DecidableEq, Repr

/-- State of a `DoctorOffice`: the doctor registry, patient registry and schedule
table, each an insertion-ordered dictionary. -/
structure DoctorOffice where
  name : String
  doctors : List (Int × Doctor)
  patients : List (Int × Patient)
  schedule : List (Datetime × List (String × Slot))
deriving DecidableEq, Repr

/-- Dictionary lookup `d[k]` (as an `Option`; `none` is `KeyError`). -/
def dictGet {α β : Type} [DecidableEq α] : List (α × β) → α → Option β
  | [], _ => none
  | (k', v') :: rest, k => if k' = k then some v' else dictGet rest k

/-- Dictionary assignment `d[k] = v`: an existing key keeps its insertion
position, a new key is appended at the end. -/
def dictSet {α β : Type} [DecidableEq α] : List (α × β) → α → β → List (α × β)
  | [], k, v => [(k, v)]
  | (k', v') :: rest, k, v =>
      if k' = k then (k', v) :: rest else (k', v') :: dictSet rest k v

/-- Dictionary `d.pop(k)` with no default: the removed value and the remaining
entries, or `none` (Python raises `KeyError`). -/
def dictPop {α β : Type} [DecidableEq α] :
    List (α × β) → α → Option (β × List (α × β))
  | [], _ => none
  | (k', v') :: rest, k =>
      if k' = k then some (v', rest)
      else (dictPop rest k).map (fun r => (r.1, (k', v') :: r.2))

/-- Insert `a` into an already sorted list, after every element strictly
below it and before the first element tied with or above it. -/
def sortedInsert {α : Type} (le : α → α → Bool) (a : α) : List α → List α
  | [] => [a]
  | b :: l =>
      if le b a && !(le a b) then b :: sortedInsert le a l else a :: b :: l

/-- Python's `sorted` with respect to a total preorder `le`: a stable sort,
embedded as stable insertion sort. -/
def stableSort {α : Type} (le : α → α → Bool) : List α → List α
  | [] => []
  | a :: l => sortedInsert le a (stableSort le l)

/-- Days since 1970-01-01 of a civil date (standard Gregorian algorithm). -/
def daysFromCivil (y : Int) (m : Nat) (d : Nat) : Int :=
  let y' : Int := if m ≤ 2 then y - 1 else y
  let era : Int := (if 0 ≤ y' then y' else y' - 399) / 400
  let yoe : Int := y' - era * 400
  let mp : Int := ((m : Int) + 9) % 12
  let doy : Int := (153 * mp + 2) / 5 + (d : Int) - 1
  let doe : Int := yoe * 365 + yoe / 4 - yoe / 100 + doy
  era * 146097 + doe - 719468

/-- Timestamp of a datetime on the total timeline, in seconds. -/
def toSeconds (t : Datetime) : Int :=
  daysFromCivil (t.year : Int) t.month t.day * 86400
    + (t.hour : Int) * 3600 + (t.minute : Int) * 60 + (t.second : Int)

/-- Python `datetime.weekday()`: Monday = 0 … Sunday = 6
(1970-01-01 was a Thursday, weekday 3). -/
def weekday (t : Datetime) : Nat :=
  ((daysFromCivil (t.year : Int) t.month t.day + 3) % 7).toNat

/-- Chronological `<=` on datetimes (Python's comparison, on valid dates). -/
def dtLe (a b : Datetime) : Bool :=
  toSeconds a ≤ toSeconds b

/-- Helper `in_week` (doctors_office_utilities.py): whether `date` lies between the
Monday 0:00 and the Sunday 23:59:59 of the calendar week containing `week`;
`True` when no week is given. -/
def inWeek (date : Datetime) (week : Option Datetime) : Bool :=
  match week with
  | none => true
  | some w =>
      let startDays := daysFromCivil (w.year : Int) w.month w.day - (weekday w : Int)
      let weekStart := startDays * 86400
      let weekEnd := (startDays + 6) * 86400 + (23 * 3600 + 59 * 60 + 59)
      weekStart ≤ toSeconds date && toSeconds date ≤ weekEnd

/-- Operation `DoctorOffice.add_doctor`: store the doctor iff no registered doctor has
the same id; return whether it was added. -/
def addDoctor (d : Doctor) (o : DoctorOffice) : Bool × DoctorOffice :=
  match dictGet o.doctors d.id with
  | some _ => (false, o)
  | none => (true, { o with doctors := dictSet o.doctors d.id d })

/-- Operation `DoctorOffice.add_patient`: store the patient iff no registered patient
has the same id; return whether it was added. -/
def addPatient (p : Patient) (o : DoctorOffice) : Bool × DoctorOffice :=
  match dictGet o.patients p.id with
  | some _ => (false, o)
  | none => (true, { o with patients := dictSet o.patients p.id p })

/-- Predicate `DoctorOffice._is_doc_available`: true iff no slot at `time_point`
references the doctor id (vacuously true when the time point is absent). -/
def isDocAvailable (o : DoctorOffice) (timePoint : Datetime) (doctorId : Int) :
    Bool :=
  match dictGet o.schedule timePoint with
  | none => true
  | some bucket => bucket.all (fun e => !(doctorId == e.2.1.id))

/-- Operation `DoctorOffice.schedule_doctor_availability`: look the doctor up in the
registry (`KeyError` if absent), create the time-point bucket if missing,
then add the open slot `(doctor, None)` at the doctor's office room iff the
doctor is available; otherwise drop the bucket again when it is empty.  Note
the source never checks whether the room itself is occupied: an existing slot
at the doctor's room is overwritten by the assignment. -/
def scheduleDoctorAvailability (timePoint : Datetime) (doctorId : Int)
    (o : DoctorOffice) : Except PyErr Bool × DoctorOffice :=
  match dictGet o.doctors doctorId with
  | none => (.error .keyError, o)
  | some doctor =>
      let officeName := doctor.office
      let o1 :=
        match dictGet o.schedule timePoint with
        | some _ => o
        | none => { o with schedule := dictSet o.schedule timePoint [] }
      if isDocAvailable o1 timePoint doctorId then
        let bucket := (dictGet o1.schedule timePoint).getD []
        let sched1 := dictSet o1.schedule timePoint
          (dictSet bucket officeName (doctor, none))
        (.ok true, { o1 with schedule := sched1 })
      else
        match dictGet o1.schedule timePoint with
        | some bucket =>
            if bucket.isEmpty then
              match dictPop o1.schedule timePoint with
              | some r => (.ok false, { o1 with schedule := r.2 })
              | none => (.error .keyError, o1)
            else (.ok false, o1)
        | none => (.error .keyError, o1)

/-- Python's `patient in self._patients`: the dict's keys are ints, so the
membership test compares the `Patient` object against an int. -/
def patientEqKey (_p : Patient) (_k : Int) : Bool :=
  false

/-- Python's `patient in self._patients` iterates the registry's int keys testing
equality with the `Patient` object; a `Patient` never equals an int, so the
test is false for every patient and every registry. -/
def patientInPatients (p : Patient) (ps : List (Int × Patient)) : Bool :=
  ps.any (fun kv => patientEqKey p kv.1)

/-- The scan loop of `DoctorOffice.book_patient` over the bucket at
`time_point`, in iteration order: return the room and doctor of the first
slot satisfying the primary-doctor condition (primary doctor's slot, open,
and `patient in self._patients`) if one is reached, together with the rooms
of the open slots collected as fallback candidates. -/
def bookScan (p : Patient) (ps : List (Int × Patient)) :
    List (String × Slot) → Option (String × Doctor) × List String
  | [] => (none, [])
  | (room, info) :: rest =>
      if info.1.id == p.primaryDoctorId && info.2.isNone
          && patientInPatients p ps then
        (some (room, info.1), [])
      else
        let r := bookScan p ps rest
        (r.1, (if info.2.isNone then [room] else []) ++ r.2)

/-- Operation `DoctorOffice.book_patient`: fail when the time point has no bucket;
otherwise book into the primary-doctor slot found by the scan, else into the
first fallback room (`_schedule_with_other_doctor`, which looks the room's
doctor up again in the schedule), else fail. -/
def bookPatient (timePoint : Datetime) (p : Patient) (o : DoctorOffice) :
    Except PyErr Bool × DoctorOffice :=
  match dictGet o.schedule timePoint with
  | none => (.ok false, o)
  | some bucket =>
      match bookScan p o.patients bucket with
      | (some (room, doctor), _) =>
          let sched1 := dictSet o.schedule timePoint
            (dictSet bucket room (doctor, some p))
          (.ok true, { o with schedule := sched1 })
      | (none, availableAppointments) =>
          match availableAppointments with
          | [] => (.ok false, o)
          | room :: _ =>
              match dictGet bucket room with
              | none => (.error .keyError, o)
              | some info =>
                  let sched1 := dictSet o.schedule timePoint
                    (dictSet bucket room (info.1, some p))
                  (.ok true, { o with schedule := sched1 })

/-- The scan loop of `DoctorOffice.cancel_appointment_patient`: walk the
bucket in iteration order; `info[PATIENT].get_id()` raises `AttributeError`
at the first open slot; otherwise stop at the first slot whose booked
patient has the given patient's id. -/
def capScan (p : Patient) :
    List (String × Slot) → Except PyErr (Option (String × Doctor))
  | [] => .ok none
  | (room, info) :: rest =>
      match info.2 with
      | none => .error .attributeError
      | some q => if q.id == p.id then .ok (some (room, info.1)) else capScan p rest

/-- Operation `DoctorOffice.cancel_appointment_patient`: clear the patient from their
slot (the doctor stays), increment the patient's cancellation counter, and
pop the patient from the registry when the counter reaches exactly 10.
Patient objects are shared by reference between caller and registry; the
registry holds one object per id, so the in-place increment is mirrored onto
the registry entry with the patient's id.  The updated patient object is
returned alongside the outcome and state. -/
def cancelAppointmentPatient (timePoint : Datetime) (p : Patient)
    (o : DoctorOffice) : Except PyErr Bool × DoctorOffice × Patient :=
  match dictGet o.schedule timePoint with
  | none => (.ok false, o, p)
  | some bucket =>
      match capScan p bucket with
      | .error e => (.error e, o, p)
      | .ok none => (.ok false, o, p)
      | .ok (some (room, doctor)) =>
          let schedule1 := dictSet o.schedule timePoint
            (dictSet bucket room (doctor, none))
          let p1 : Patient := { p with cancellations := p.cancellations + 1 }
          let patients1 := o.patients.map
            (fun kv => if kv.1 == p.id then (kv.1, p1) else kv)
          if p1.cancellations == 10 then
            match dictPop patients1 p.id with
            | none =>
                (.error .keyError,
                  { o with schedule := schedule1, patients := patients1 }, p1)
            | some r =>
                (.ok true,
                  { o with schedule := schedule1, patients := r.2 }, p1)
          else
            (.ok true,
              { o with schedule := schedule1, patients := patients1 }, p1)

/-- The inner loop of `DoctorOffice._book_cancelled_patient` over one
bucket: at each open slot, `patient.get_id()` raises `AttributeError` when
the cancelled slot had no patient; otherwise the first open slot whose scan
finds the patient id registered yields that slot's room and doctor. -/
def bcpScanBucket (pOpt : Option Patient) (ps : List (Int × Patient)) :
    List (String × Slot) → Except PyErr (Option (String × Doctor × Patient))
  | [] => .ok none
  | (room, info) :: rest =>
      match info.2 with
      | some _ => bcpScanBucket pOpt ps rest
      | none =>
          match pOpt with
          | none => .error .attributeError
          | some p =>
              if (dictGet ps p.id).isSome then .ok (some (room, info.1, p))
              else bcpScanBucket pOpt ps rest

/-- The outer loop of `DoctorOffice._book_cancelled_patient` over the sorted
dates at or after the cancelled time point. -/
def bcpScanDates (o : DoctorOffice) (pOpt : Option Patient) :
    List Datetime → Except PyErr (Option (String × Doctor × Patient))
  | [] => .ok none
  | d :: rest =>
      match dictGet o.schedule d with
      | none => .error .keyError
      | some bucket =>
          match bcpScanBucket pOpt o.patients bucket with
          | .error e => .error e
          | .ok (some r) => .ok (some r)
          | .ok none => bcpScanDates o pOpt rest

/-- Helper `DoctorOffice._book_cancelled_patient`: scan all schedule dates at or
after `time_point` in chronological order for an open slot whose patient is
still registered; on a hit the source writes the booking into
`self._schedule[time_point][room]` — the *original* time point at the
*found* room — which raises `KeyError` when the original time point's bucket
no longer exists. -/
def bookCancelledPatient (timePoint : Datetime) (pOpt : Option Patient)
    (o : DoctorOffice) : Except PyErr Bool × DoctorOffice :=
  let dates := stableSort dtLe
    ((o.schedule.map (·.1)).filter (fun d => dtLe timePoint d))
  match bcpScanDates o pOpt dates with
  | .error e => (.error e, o)
  | .ok none => (.ok false, o)
  | .ok (some (room, doctor, p)) =>
      match dictGet o.schedule timePoint with
      | none => (.error .keyError, o)
      | some bucket =>
          let sched1 := dictSet o.schedule timePoint
            (dictSet bucket room (doctor, some p))
          (.ok true, { o with schedule := sched1 })

/-- Operation `DoctorOffice.cancel_appointment_doctor`: return `False` when the time
point has no bucket; otherwise find the first slot held by the doctor, pop
it (pruning the bucket when it becomes empty) and hand the slot's patient to
`_book_cancelled_patient`; when no slot matches, the source falls off the
loop and returns Python `None` (`.ok none` here, versus `.ok (some b)` for
an actual boolean). -/
def cancelAppointmentDoctor (timePoint : Datetime) (d : Doctor)
    (o : DoctorOffice) : Except PyErr (Option Bool) × DoctorOffice :=
  match dictGet o.schedule timePoint with
  | none => (.ok (some false), o)
  | some bucket =>
      match bucket.find? (fun e => d.id == e.2.1.id) with
      | none => (.ok none, o)
      | some (room, info) =>
          match dictPop bucket room with
          | none => (.error .keyError, o)
          | some r =>
              let bucket1 := r.2
              match
                (if bucket1.isEmpty then
                  match dictPop o.schedule timePoint with
                  | none => none
                  | some s => some { o with schedule := s.2 }
                else
                  some { o with schedule := dictSet o.schedule timePoint bucket1 }) with
              | none => (.error .keyError, o)
              | some o1 =>
                  match bookCancelledPatient timePoint info.2 o1 with
                  | (.error e, o2) => (.error e, o2)
                  | (.ok b, o2) => (.ok (some b), o2)

/-- Predicate `DoctorOffice._is_doctor_name_unique`: true iff no *other* registered
doctor id maps to a doctor with the same name. -/
def isDoctorNameUnique (o : DoctorOffice) (d : Doctor) : Bool :=
  o.doctors.all (fun kv => !(!(d.id == kv.1) && kv.2.name == d.name))

/-- Zero-pad a number to two digits (strftime `%m`, `%d`, `%H`, `%M`). -/
def pad2 (n : Nat) : String :=
  if n < 10 then "0" ++ toString n else toString n

/-- Zero-pad a year to four digits (strftime `%Y`). -/
def pad4 (n : Nat) : String :=
  if n < 10 then "000" ++ toString n
  else if n < 100 then "00" ++ toString n
  else if n < 1000 then "0" ++ toString n
  else toString n

/-- strftime `%A`: the full weekday name, indexed Monday = 0. -/
def weekdayName : Nat → String
  | 0 => "Monday"
  | 1 => "Tuesday"
  | 2 => "Wednesday"
  | 3 => "Thursday"
  | 4 => "Friday"
  | 5 => "Saturday"
  | _ => "Sunday"

/-- Format `time_point.strftime('%A, %Y-%m-%d')`. -/
def formatDate (t : Datetime) : String :=
  weekdayName (weekday t) ++ ", " ++ pad4 t.year ++ "-"
    ++ pad2 t.month ++ "-" ++ pad2 t.day

/-- Format `time_point.strftime('%H:%M')`. -/
def formatTime (t : Datetime) : String :=
  pad2 t.hour ++ ":" ++ pad2 t.minute

/-- Helper `create_appointment_dict` (doctors_office_utilities.py): the display
record with keys Date, Time, Room, Doctor, Patient. -/
structure Appt where
  date : String
  time : String
  room : String
  doctor : String
  patient : String
deriving DecidableEq, Repr

/-- The loop body of `DoctorOffice.appointments_at` for one slot: reading
`info[PATIENT].name` raises `AttributeError` when the slot is open; otherwise
build the record, disambiguating a non-unique doctor name with the id. -/
def apptRow (o : DoctorOffice) (dateS timeS : String) (room : String)
    (info : Slot) : Except PyErr Appt :=
  match info.2 with
  | none => .error .attributeError
  | some q =>
      let unique := isDoctorNameUnique o info.1
      let docName :=
        if !unique then info.1.name ++ " (" ++ toString info.1.id ++ ")"
        else info.1.name
      .ok { date := dateS, time := timeS, room := room,
            doctor := docName, patient := q.name }

/-- The loop of `DoctorOffice.appointments_at` over a bucket, in iteration
order, stopping at the first raising slot. -/
def apptRows (o : DoctorOffice) (dateS timeS : String) :
    List (String × Slot) → Except PyErr (List Appt)
  | [] => .ok []
  | (room, info) :: rest =>
      match apptRow o dateS timeS room info with
      | .error e => .error e
      | .ok a =>
          match apptRows o dateS timeS rest with
          | .error e => .error e
          | .ok rows => .ok (a :: rows)

/-- Query `DoctorOffice.appointments_at`: the display records of every slot at
`time_point`, sorted by room name ascending; the empty list when the time
point has no bucket. -/
def appointmentsAt (o : DoctorOffice) (timePoint : Datetime) :
    Except PyErr (List Appt) :=
  match dictGet o.schedule timePoint with
  | none => .ok []
  | some bucket =>
      let dateS := formatDate timePoint
      let timeS := formatTime timePoint
      match apptRows o dateS timeS bucket with
      | .error e => .error e
      | .ok appointments =>
          .ok (stableSort (fun a b => a.room ≤ b.room) appointments)

/-- The loop of `DoctorOffice.to_schedule_list` over the sorted time points,
keeping those in the requested week and concatenating their records. -/
def scheduleListLoop (o : DoctorOffice) (week : Option Datetime) :
    List Datetime → Except PyErr (List Appt)
  | [] => .ok []
  | tp :: rest =>
      if inWeek tp week then
        match appointmentsAt o tp with
        | .error e => .error e
        | .ok rows =>
            match scheduleListLoop o week rest with
            | .error e => .error e
            | .ok rest' => .ok (rows ++ rest')
      else scheduleListLoop o week rest

/-- Query `DoctorOffice.to_schedule_list`: records of the whole schedule in
chronological order of time point (rooms ascending within one time point via
`appointments_at`), restricted to `week`'s calendar week when given. -/
def toScheduleList (o : DoctorOffice) (week : Option Datetime) :
    Except PyErr (List Appt) :=
  let timePoints := stableSort dtLe (o.schedule.map (·.1))
  scheduleListLoop o week timePoints

/-! ## Concrete fixtures

Small reachable office states used to exercise the operations at concrete
inputs.  `tFri` and `tSat` are 2023-02-03 12:00 and 2023-02-04 12:00. -/

def tFri : Datetime := ⟨2023, 2, 3, 12, 0, 0⟩

def tSat : Datetime := ⟨2023, 2, 4, 12, 0, 0⟩

/-- Doctor id 1 with home room "A". -/
def docAna : Doctor := ⟨"Ana", 1, "A"⟩

/-- Doctor id 2 with home room "B". -/
def docBob : Doctor := ⟨"Bob", 2, "B"⟩

/-- Doctor id 2 whose home room "A" is also `docAna`'s home room. -/
def docCal : Doctor := ⟨"Cal", 2, "A"⟩

/-- Doctor id 1 with home room "B". -/
def docDee : Doctor := ⟨"Dee", 1, "B"⟩

/-- Registered patient, primary doctor id 1. -/
def pam : Patient := ⟨"Pam", 5, 1, 0⟩

/-- Registered patient, primary doctor id 1. -/
def quinn : Patient := ⟨"Quinn", 6, 1, 0⟩

/-- A patient id 9 that is registered in no fixture office. -/
def zoe : Patient := ⟨"Zoe", 9, 1, 0⟩

/-- Bucket at `tFri` with two open slots: room "A" held by doctor id 2 and
room "B" held by doctor id 1. -/
def bucketAB : List (String × Slot) :=
  [("A", (docCal, none)), ("B", (docDee, none))]

/-- Office where `pam`'s primary doctor (id 1) holds the open slot in room
"B" while a different doctor holds the open slot in room "A", which comes
first in table iteration order. -/
def officeTwoOpen : DoctorOffice :=
  ⟨"Office", [(2, docCal), (1, docDee)], [(5, pam)], [(tFri, bucketAB)]⟩

/-- Office where doctor id 1 holds the only slot at `tFri`, booked by `pam`,
and the only open slot is at `tSat`. -/
def officeLateOpen : DoctorOffice :=
  ⟨"Office", [(1, docAna), (2, docBob)], [(5, pam)],
    [(tFri, [("A", (docAna, some pam))]), (tSat, [("B", (docBob, none))])]⟩

/-- Office with a single open slot at `tFri`, held by doctor id 1. -/
def officeOpenSlot : DoctorOffice :=
  ⟨"Office", [(1, docAna)], [], [(tFri, [("A", (docAna, none))])]⟩

/-- Office where doctor id 1 occupies room "A" at `tFri` and doctor id 2's
home room is that same room "A". -/
def officeSharedRoom : DoctorOffice :=
  ⟨"Office", [(1, docAna), (2, docCal)], [],
    [(tFri, [("A", (docAna, none))])]⟩

/-- Office where the open slot in room "A" precedes `quinn`'s booked slot in
room "B" in table iteration order. -/
def officeOpenFirst : DoctorOffice :=
  ⟨"Office", [(1, docAna), (2, docBob)], [(6, quinn)],
    [(tFri, [("A", (docAna, none)), ("B", (docBob, some quinn))])]⟩

/-- Office where `pam` is already booked in room "A" at `tFri` and room "B"
is open at the same time point. -/
def officeBookedPlusOpen : DoctorOffice :=
  ⟨"Office", [(1, docAna), (2, docBob)], [(5, pam)],
    [(tFri, [("A", (docAna, some pam)), ("B", (docBob, none))])]⟩

/-- The schedule-table invariant of the spec: no time-point key maps to an
empty room dictionary. -/
def NoEmptyBuckets (o : DoctorOffice) : Prop :=
  ∀ e ∈ o.schedule, e.2 ≠ []

instance (o : DoctorOffice) : Decidable (NoEmptyBuckets o) :=
  inferInstanceAs (Decidable (∀ e ∈ o.schedule, e.2 ≠ []))

/-! ## Dictionary lemmas -/

theorem dictGet_dictSet_self {α β : Type} [DecidableEq α]
    (l : List (α × β)) (k : α) (v : β) : dictGet (dictSet l k v) k = some v := by
  induction l with
  | nil => simp [dictGet, dictSet]
  | cons hd tl ih =>
      by_cases h : hd.1 = k
      · simp [dictGet, dictSet, h]
      · simpa [dictGet, dictSet, h] using ih

theorem dictSet_dictSet_self {α β : Type} [DecidableEq α]
    (l : List (α × β)) (k : α) (v w : β) :
    dictSet (dictSet l k v) k w = dictSet l k w := by
  induction l with
  | nil => simp [dictSet]
  | cons hd tl ih =>
      by_cases h : hd.1 = k
      · simp [dictSet, h]
      · simp [dictSet, h, ih]

theorem mem_dictSet {α β : Type} [DecidableEq α]
    {l : List (α × β)} {k : α} {v : β} {e : α × β} (he : e ∈ dictSet l k v) :
    e = (k, v) ∨ e ∈ l := by
  induction l with
  | nil => simpa [dictSet] using he
  | cons hd tl ih =>
      by_cases h : hd.1 = k
      · rcases (by simpa [dictSet, h] using he) with h1 | h1
        · left; rw [h1, ← h]
        · right; exact List.mem_cons_of_mem hd h1
      · rcases (by simpa [dictSet, h] using he) with h1 | h1
        · right; rw [h1]; exact List.mem_cons_self hd tl
        · rcases ih h1 with h2 | h2
          · left; exact h2
          · right; exact List.mem_cons_of_mem hd h2

theorem dictSet_ne_nil {α β : Type} [DecidableEq α]
    (l : List (α × β)) (k : α) (v : β) : dictSet l k v ≠ [] := by
  cases l with
  | nil => simp [dictSet]
  | cons hd tl =>
      by_cases h : hd.1 = k <;> simp [dictSet, h]

theorem mem_of_dictPop {α β : Type} [DecidableEq α]
    {l l' : List (α × β)} {k : α} {v : β}
    (hp : dictPop l k = some (v, l')) : ∀ e ∈ l', e ∈ l := by
  induction l generalizing l' v with
  | nil => simp [dictPop] at hp
  | cons hd tl ih =>
      by_cases h : hd.1 = k
      · simp only [dictPop, h, if_pos, Option.some.injEq, Prod.mk.injEq] at hp
        intro e he
        exact List.mem_cons_of_mem hd (hp.2 ▸ he)
      · simp only [dictPop, h, if_neg, not_false_iff, Option.map_eq_some'] at hp
        rcases hp with ⟨⟨v0, l0⟩, hp0, heq⟩
        rcases Prod.mk.injEq .. ▸ heq with ⟨-, hl⟩
        intro e he
        rw [← hl] at he
        rcases List.mem_cons.mp he with h1 | h1
        · rw [h1]; exact List.mem_cons_self hd tl
        · exact List.mem_cons_of_mem hd (ih hp0 e h1)

theorem dictGet_mem {α β : Type} [DecidableEq α]
    {l : List (α × β)} {k : α} {v : β} (h : dictGet l k = some v) :
    (k, v) ∈ l := by
  induction l with
  | nil => simp [dictGet] at h
  | cons hd tl ih =>
      obtain ⟨k0, v0⟩ := hd
      by_cases h1 : k0 = k
      · simp only [dictGet, h1, if_pos, Option.some.injEq] at h
        subst h1; subst h
        exact List.mem_cons_self _ tl
      · simp only [dictGet, h1, if_neg, not_false_iff] at h
        exact List.mem_cons_of_mem _ (ih h)

/-- Full characterization of `schedule_doctor_availability` for a registered
doctor: the outcome is exactly the doctor's availability at the time point;
on success the slot `(doctor, None)` is written at the doctor's home room
(overwriting whatever occupied that room); on failure the state is
unchanged. -/
theorem scheduleDoctorAvailability_characterization (o : DoctorOffice)
    (t : Datetime) (did : Int) (doc : Doctor)
    (h : dictGet o.doctors did = some doc) :
    (scheduleDoctorAvailability t did o).1 = .ok (isDocAvailable o t did) ∧
    (isDocAvailable o t did = true →
      (scheduleDoctorAvailability t did o).2 =
        ⟨o.name, o.doctors, o.patients,
          dictSet o.schedule t
            (dictSet ((dictGet o.schedule t).getD []) doc.office
              (doc, none))⟩) ∧
    (isDocAvailable o t did = false →
      (scheduleDoctorAvailability t did o).2 = o) := by
  cases hg : dictGet o.schedule t with
  | some bucket =>
      have havail : isDocAvailable o t did
          = bucket.all (fun e => !(did == e.2.1.id)) := by
        simp [isDocAvailable, hg]
      cases ha : bucket.all (fun e => !(did == e.2.1.id)) with
      | true =>
          refine ⟨?_, ?_, ?_⟩ <;>
            simp [scheduleDoctorAvailability, h, hg, havail, ha, isDocAvailable]
      | false =>
          have hne : bucket.isEmpty = false := by
            cases bucket with
            | nil => simp at ha
            | cons hd tl => rfl
          refine ⟨?_, ?_, ?_⟩ <;>
            simp [scheduleDoctorAvailability, h, hg, havail, ha, hne,
              isDocAvailable]
  | none =>
      have havail : isDocAvailable o t did = true := by
        simp [isDocAvailable, hg]
      have hget : dictGet (dictSet o.schedule t
          ([] : List (String × Slot))) t = some [] :=
        dictGet_dictSet_self o.schedule t []
      refine ⟨?_, ?_, ?_⟩ <;>
        simp [scheduleDoctorAvailability, h, hg, havail, isDocAvailable, hget,
          dictSet_dictSet_self, dictSet]

/-! ## Claim theorems -/

/-- Claim C1: `book_patient` is claimed to book a registered patient into
their primary doctor's open slot with absolute priority.  In the source the
primary-doctor branch requires `patient in self._patients`, which compares
the `Patient` object against the registry's int keys and is always false, so
the branch never fires: in `officeTwoOpen`, `pam` is registered, her primary
doctor (id 1 = `docDee`) holds the open slot in room "B", yet she is booked
into the first open slot in iteration order — room "A" with doctor id 2 —
and the primary slot stays open. -/
theorem bookPatient_ignores_primary_doctor :
    dictGet officeTwoOpen.patients pam.id = some pam ∧
    pam.primaryDoctorId = docDee.id ∧
    docCal.id ≠ pam.primaryDoctorId ∧
    bookPatient tFri pam officeTwoOpen =
      (.ok true,
        ⟨"Office", [(2, docCal), (1, docDee)], [(5, pam)],
          [(tFri, [("A", (docCal, some pam)), ("B", (docDee, none))])]⟩) := by
  refine ⟨rfl, rfl, ?_, rfl⟩
  decide

/-- Claim C2: doctor cancellation is claimed to rebook the cancelled patient
into the chronologically earliest open slot at or after the time point.  In
`officeLateOpen` doctor id 1 cancels the only slot at `tFri` (booked by
`pam`); the earliest open slot is at `tSat`, but `_book_cancelled_patient`
writes the booking into `self._schedule[time_point][room]` — the original
time point, whose bucket was just pruned — so the call raises `KeyError`
with the slot already deleted and `pam` left unbooked. -/
theorem cancelAppointmentDoctor_rebooking_raises_keyerror :
    cancelAppointmentDoctor tFri docAna officeLateOpen =
      (.error .keyError,
        ⟨"Office", [(1, docAna), (2, docBob)], [(5, pam)],
          [(tSat, [("B", (docBob, none))])]⟩) := by
  rfl

/-- Claim C3: every unsuccessful engine operation is claimed to return the
boolean `False` and never a non-boolean.  When the time point has slots but
none belongs to the doctor, `cancel_appointment_doctor` falls off its loop
and returns Python `None` (`.ok none`, as opposed to `.ok (some false)`). -/
theorem cancelAppointmentDoctor_returns_none :
    cancelAppointmentDoctor tFri docBob officeOpenSlot =
      (.ok none, officeOpenSlot) := by
  rfl

/-- Claim C4: `appointments_at` is claimed to return one display record for
every slot at the time point, open slots included.  Reading
`info[PATIENT].name` on an open slot raises `AttributeError` instead, so any
open slot makes the whole call raise. -/
theorem appointmentsAt_raises_on_open_slot :
    appointmentsAt officeOpenSlot tFri = .error .attributeError := by
  rfl

/-- Claim C5 (counterexample): `schedule_doctor_availability` is claimed to
create the slot only when the doctor's home room is not already occupied at
the time point.  In `officeSharedRoom` room "A" is occupied by doctor id 1,
yet scheduling doctor id 2 (whose home room is also "A") succeeds and
silently overwrites the existing slot: the source checks only
`_is_doc_available`, never room occupancy. -/
theorem scheduleDoctorAvailability_overwrites_room :
    dictGet ((dictGet officeSharedRoom.schedule tFri).getD []) "A" =
      some (docAna, none) ∧
    docCal.office = "A" ∧
    scheduleDoctorAvailability tFri 2 officeSharedRoom =
      (.ok true,
        ⟨"Office", [(1, docAna), (2, docCal)], [],
          [(tFri, [("A", (docCal, none))])]⟩) :=
  ⟨rfl, rfl, rfl⟩

/-- Claim C5 (amended): for every registered doctor,
`schedule_doctor_availability(time_point, doctor_id)` creates the open slot
at `(time_point, doctor's home room)` iff the doctor holds no slot at the
time point — the home room's occupancy is *not* checked, and an existing
slot in that room is overwritten by the write; on failure the state is
exactly unchanged (in particular no empty bucket is left behind). -/
theorem scheduleDoctorAvailability_amended (o : DoctorOffice) (t : Datetime)
    (did : Int) (doc : Doctor) (h : dictGet o.doctors did = some doc) :
    (scheduleDoctorAvailability t did o).1 = .ok (isDocAvailable o t did) ∧
    (isDocAvailable o t did = true →
      (scheduleDoctorAvailability t did o).2 =
        ⟨o.name, o.doctors, o.patients,
          dictSet o.schedule t
            (dictSet ((dictGet o.schedule t).getD []) doc.office
              (doc, none))⟩) ∧
    (isDocAvailable o t did = false →
      (scheduleDoctorAvailability t did o).2 = o) :=
  scheduleDoctorAvailability_characterization o t did doc h

/-- Witness for `scheduleDoctorAvailability_amended` at the concrete office
`officeSharedRoom`, doctor id 2. -/
theorem scheduleDoctorAvailability_amended_witness :
    dictGet officeSharedRoom.doctors 2 = some docCal ∧
    (scheduleDoctorAvailability tFri 2 officeSharedRoom).1 =
      .ok (isDocAvailable officeSharedRoom tFri 2) :=
  ⟨rfl,
    (scheduleDoctorAvailability_amended officeSharedRoom tFri 2 docCal rfl).1⟩

/-- Claim C6: `cancel_appointment_patient` is claimed to clear the booked
patient's slot and return `False` when no slot matches.  The scan evaluates
`info[PATIENT].get_id()` on every slot it passes, so in `officeOpenFirst` —
where the open slot in room "A" precedes `quinn`'s booked slot in room "B" —
cancelling `quinn`'s appointment raises `AttributeError` before her slot is
reached, and nothing is cancelled. -/
theorem cancelAppointmentPatient_raises_on_open_slot :
    dictGet ((dictGet officeOpenFirst.schedule tFri).getD []) "B" =
      some (docBob, some quinn) ∧
    cancelAppointmentPatient tFri quinn officeOpenFirst =
      (.error .attributeError, officeOpenFirst, quinn) :=
  ⟨rfl, rfl⟩

/-- Claim C7: a patient already holding a slot at the time point is claimed
to be rejected.  In `officeBookedPlusOpen`, `pam` already holds room "A" at
`tFri`; booking her again returns `True` and writes her into the open room
"B" as well, so two slots at the same time point reference the same
patient. -/
theorem bookPatient_double_books :
    dictGet ((dictGet officeBookedPlusOpen.schedule tFri).getD []) "A" =
      some (docAna, some pam) ∧
    bookPatient tFri pam officeBookedPlusOpen =
      (.ok true,
        ⟨"Office", [(1, docAna), (2, docBob)], [(5, pam)],
          [(tFri, [("A", (docAna, some pam)), ("B", (docBob, some pam))])]⟩) :=
  ⟨rfl, rfl⟩

/-- Claim C8: `to_schedule_list` is claimed to return the display records of
all slots (all weeks, when `week` is omitted).  It delegates to
`appointments_at`, which raises `AttributeError` on any open slot, so the
schedule containing one open slot raises instead of producing its record. -/
theorem toScheduleList_raises_on_open_slot :
    toScheduleList officeOpenSlot none = .error .attributeError := by
  rfl

/-! ## The no-empty-bucket invariant (C9) -/

theorem noEmptyBuckets_dictSet
    {s : List (Datetime × List (String × Slot))} (h : ∀ e ∈ s, e.2 ≠ [])
    {t : Datetime} {b : List (String × Slot)} (hb : b ≠ []) :
    ∀ e ∈ dictSet s t b, e.2 ≠ [] := by
  intro e he
  rcases mem_dictSet he with rfl | hmem
  · exact hb
  · exact h e hmem

theorem addDoctor_noEmptyBuckets (d : Doctor) (o : DoctorOffice)
    (h : NoEmptyBuckets o) : NoEmptyBuckets (addDoctor d o).2 := by
  unfold addDoctor
  cases dictGet o.doctors d.id <;> exact h

theorem addPatient_noEmptyBuckets (p : Patient) (o : DoctorOffice)
    (h : NoEmptyBuckets o) : NoEmptyBuckets (addPatient p o).2 := by
  unfold addPatient
  cases dictGet o.patients p.id <;> exact h

theorem scheduleDoctorAvailability_noEmptyBuckets (t : Datetime) (did : Int)
    (o : DoctorOffice) (h : NoEmptyBuckets o) :
    NoEmptyBuckets (scheduleDoctorAvailability t did o).2 := by
  cases hd : dictGet o.doctors did with
  | none => simpa [scheduleDoctorAvailability, hd] using h
  | some doc =>
      rcases scheduleDoctorAvailability_characterization o t did doc hd
        with ⟨-, hsucc, hfail⟩
      cases ha : isDocAvailable o t did with
      | true =>
          rw [hsucc ha]
          exact noEmptyBuckets_dictSet h
            (dictSet_ne_nil ((dictGet o.schedule t).getD []) doc.office
              (doc, none))
      | false => rw [hfail ha]; exact h

theorem bookPatient_noEmptyBuckets (t : Datetime) (p : Patient)
    (o : DoctorOffice) (h : NoEmptyBuckets o) :
    NoEmptyBuckets (bookPatient t p o).2 := by
  unfold bookPatient
  split
  · exact h
  next bucket hg =>
    split
    next room doctor snd hs =>
      exact noEmptyBuckets_dictSet h (dictSet_ne_nil bucket room _)
    next avail hs =>
      split
      · exact h
      next room rest =>
        split
        · exact h
        next info hinfo =>
          exact noEmptyBuckets_dictSet h (dictSet_ne_nil bucket room _)

theorem cancelAppointmentPatient_noEmptyBuckets (t : Datetime) (p : Patient)
    (o : DoctorOffice) (h : NoEmptyBuckets o) :
    NoEmptyBuckets (cancelAppointmentPatient t p o).2.1 := by
  unfold cancelAppointmentPatient
  dsimp only
  split
  · exact h
  next bucket hg =>
    split
    · exact h
    · exact h
    next room doctor hs =>
      have hset : ∀ e ∈ dictSet o.schedule t
          (dictSet bucket room (doctor, none)), e.2 ≠ [] :=
        noEmptyBuckets_dictSet h (dictSet_ne_nil bucket room _)
      split
      · split
        · exact hset
        · exact hset
      · exact hset

theorem bookCancelledPatient_noEmptyBuckets (t : Datetime)
    (pOpt : Option Patient) (o : DoctorOffice) (h : NoEmptyBuckets o) :
    NoEmptyBuckets (bookCancelledPatient t pOpt o).2 := by
  unfold bookCancelledPatient
  dsimp only
  split
  · exact h
  · exact h
  next room doctor p hs =>
    split
    · exact h
    next bucket hg =>
      exact noEmptyBuckets_dictSet h (dictSet_ne_nil bucket room _)

theorem cancelAppointmentDoctor_noEmptyBuckets (t : Datetime) (d : Doctor)
    (o : DoctorOffice) (h : NoEmptyBuckets o) :
    NoEmptyBuckets (cancelAppointmentDoctor t d o).2 := by
  unfold cancelAppointmentDoctor
  dsimp only
  split
  · exact h
  next bucket hg =>
    split
    · exact h
    next room info hf =>
      split
      · exact h
      next r hpop =>
        rcases hbe : r.2.isEmpty with hF | hT
        · rw [if_neg (by simp : ¬ (false = true))]
          dsimp only
          have hne : r.2 ≠ [] := by
            intro hnil
            rw [hnil] at hbe
            simp at hbe
          have h1 : NoEmptyBuckets
              (⟨o.name, o.doctors, o.patients,
                dictSet o.schedule t r.2⟩ : DoctorOffice) :=
            noEmptyBuckets_dictSet h hne
          have h2 := bookCancelledPatient_noEmptyBuckets t info.2
            ⟨o.name, o.doctors, o.patients, dictSet o.schedule t r.2⟩ h1
          rcases hbk : bookCancelledPatient t info.2
              ⟨o.name, o.doctors, o.patients, dictSet o.schedule t r.2⟩
            with ⟨rb, o2⟩
          rw [hbk] at h2
          cases rb <;> exact h2
        · rw [if_pos rfl]
          rcases hp : dictPop o.schedule t with _ | s
          · exact h
          · dsimp only
            have h1 : NoEmptyBuckets
                (⟨o.name, o.doctors, o.patients, s.2⟩ : DoctorOffice) := by
              intro e he
              exact h e (mem_of_dictPop hp e he)
            have h2 := bookCancelledPatient_noEmptyBuckets t info.2
              ⟨o.name, o.doctors, o.patients, s.2⟩ h1
            rcases hbk : bookCancelledPatient t info.2
                ⟨o.name, o.doctors, o.patients, s.2⟩ with ⟨rb, o2⟩
            rw [hbk] at h2
            cases rb <;> exact h2

/-- Claim C9: from any state whose schedule table has no empty time-point
bucket, every engine operation — `add_doctor`, `add_patient`,
`schedule_doctor_availability`, `book_patient`,
`cancel_appointment_patient`, `cancel_appointment_doctor` — leaves a state
whose schedule table again has no empty bucket (this also covers every
reachable state, the initial schedule being empty). -/
theorem engine_preserves_noEmptyBuckets (o : DoctorOffice)
    (h : NoEmptyBuckets o) :
    (∀ d, NoEmptyBuckets (addDoctor d o).2) ∧
    (∀ p, NoEmptyBuckets (addPatient p o).2) ∧
    (∀ t did, NoEmptyBuckets (scheduleDoctorAvailability t did o).2) ∧
    (∀ t p, NoEmptyBuckets (bookPatient t p o).2) ∧
    (∀ t p, NoEmptyBuckets (cancelAppointmentPatient t p o).2.1) ∧
    (∀ t d, NoEmptyBuckets (cancelAppointmentDoctor t d o).2) :=
  ⟨fun d => addDoctor_noEmptyBuckets d o h,
   fun p => addPatient_noEmptyBuckets p o h,
   fun t did => scheduleDoctorAvailability_noEmptyBuckets t did o h,
   fun t p => bookPatient_noEmptyBuckets t p o h,
   fun t p => cancelAppointmentPatient_noEmptyBuckets t p o h,
   fun t d => cancelAppointmentDoctor_noEmptyBuckets t d o h⟩

/-- Witness for `engine_preserves_noEmptyBuckets` at the concrete office
`officeLateOpen`: cancelling doctor id 1's slot at `tFri` (which empties
and prunes that bucket, then raises during rebooking) leaves no empty
bucket. -/
theorem engine_preserves_noEmptyBuckets_witness :
    NoEmptyBuckets (cancelAppointmentDoctor tFri docAna officeLateOpen).2 :=
  (engine_preserves_noEmptyBuckets officeLateOpen (by decide)).2.2.2.2.2
    tFri docAna

/-! ## The fallback booking path (C10) -/

theorem patientInPatients_eq_false (p : Patient) (ps : List (Int × Patient)) :
    patientInPatients p ps = false := by
  induction ps with
  | nil => rfl
  | cons hd tl ih => simp [patientInPatients, patientEqKey] at ih ⊢

theorem bookScan_eq (p : Patient) (ps : List (Int × Patient))
    (l : List (String × Slot)) :
    bookScan p ps l =
      (none, (l.filter (fun e => e.2.2.isNone)).map Prod.fst) := by
  induction l with
  | nil => rfl
  | cons hd tl ih =>
      obtain ⟨room, info⟩ := hd
      cases hni : info.2.isNone <;>
        simp [bookScan, patientInPatients_eq_false, hni, ih, List.filter_cons]

theorem filter_eq_cons_of_find? {α : Type} {p : α → Bool} {l : List α}
    {a : α} (h : l.find? p = some a) : ∃ tl, l.filter p = a :: tl := by
  induction l with
  | nil => simp at h
  | cons b l ih =>
      cases hb : p b
      · rw [List.find?_cons_of_neg _ (by simp [hb])] at h
        obtain ⟨tl, htl⟩ := ih h
        exact ⟨tl, by simp [List.filter_cons, hb, htl]⟩
      · rw [List.find?_cons_of_pos _ hb] at h
        cases h
        exact ⟨l.filter p, by simp [List.filter_cons, hb]⟩

theorem dictGet_of_find? {α β : Type} [DecidableEq α] {pr : α × β → Bool}
    {l : List (α × β)} {k : α} {v : β}
    (hf : l.find? pr = some (k, v)) (hnd : (l.map Prod.fst).Nodup) :
    dictGet l k = some v := by
  induction l with
  | nil => simp at hf
  | cons hd tl ih =>
      obtain ⟨k0, v0⟩ := hd
      simp only [List.map_cons, List.nodup_cons] at hnd
      cases hb : pr (k0, v0)
      · rw [List.find?_cons_of_neg _ (by simp [hb])] at hf
        have hkmem : k ∈ tl.map Prod.fst :=
          List.mem_map_of_mem Prod.fst (List.mem_of_find?_eq_some hf)
        have hne : k0 ≠ k := fun he => hnd.1 (he ▸ hkmem)
        simp only [dictGet, if_neg hne]
        exact ih hf hnd.2
      · rw [List.find?_cons_of_pos _ hb] at hf
        cases hf
        simp [dictGet]

/-- Claim C10: for a `Patient` object absent from the registry and a time
point whose bucket (with the dict's unique room keys) holds at least one
open slot, `book_patient` returns `True` and writes the unregistered patient
into the first open slot in table iteration order: the registration test on
the fallback path never fires, so booking enforces no effective registration
requirement. -/
theorem bookPatient_no_registration_check (o : DoctorOffice) (t : Datetime)
    (p : Patient) (bucket : List (String × Slot)) (room : String)
    (doc : Doctor) (hb : dictGet o.schedule t = some bucket)
    (hnd : (bucket.map Prod.fst).Nodup)
    (hopen : bucket.find? (fun e => e.2.2.isNone) = some (room, (doc, none)))
    (_hunreg : dictGet o.patients p.id = none) :
    bookPatient t p o =
      (.ok true,
        ⟨o.name, o.doctors, o.patients,
          dictSet o.schedule t (dictSet bucket room (doc, some p))⟩) := by
  obtain ⟨tl, hfil⟩ := filter_eq_cons_of_find? hopen
  have hdg : dictGet bucket room = some (doc, none) := dictGet_of_find? hopen hnd
  simp only [bookPatient, hb, bookScan_eq, hfil, List.map_cons, hdg]

/-- Witness for `bookPatient_no_registration_check`: the unregistered `zoe`
is booked at `tFri` in `officeTwoOpen` into room "A", the first open slot in
iteration order. -/
theorem bookPatient_no_registration_check_witness :
    bookPatient tFri zoe officeTwoOpen =
      (.ok true,
        ⟨officeTwoOpen.name, officeTwoOpen.doctors, officeTwoOpen.patients,
          dictSet officeTwoOpen.schedule tFri
            (dictSet bucketAB "A" (docCal, some zoe))⟩) :=
  bookPatient_no_registration_check officeTwoOpen tFri zoe bucketAB "A" docCal
    rfl (by decide) rfl rfl

end DocOffice

